import Mathlib

/-!
Verification of `tk-multi-reviewsubmission` (`src/app.py`): a quicktime
review-submission app.  The Python source is shallowly embedded below:
pure string manipulation becomes Lean string functions, the Shotgun
version-record dictionary becomes a structure with optional fields,
fallible remote calls become `Except String Unit` outcomes supplied by an
explicit `World`, and the pipeline's side effects become an explicit
event trace plus a filesystem modelled as a list of existing paths.
-/

namespace ReviewSubmission

/-- Values stored in a template field mapping (Python dict values:
strings and ints are the ones this app reads/writes). -/
inductive FieldValue
  | str : String → FieldValue
  | int : Int → FieldValue
deriving DecidableEq, Repr

/-- A template field mapping: embedding of the Python `fields` dict. -/
abbrev Fields := List (String × FieldValue)

/-- Dict lookup, `fields.get(k)`: the first binding for `k`, if any. -/
def Fields.get? : Fields → String → Option FieldValue
  | [], _ => none
  | (k2, v) :: rest, k => if k2 = k then some v else Fields.get? rest k

/-- Dict store, `fields[k] = v`: replaces the binding for `k` in place,
or appends a new binding. -/
def Fields.insert : Fields → String → FieldValue → Fields
  | [], k, v => [(k, v)]
  | (k2, v2) :: rest, k, v =>
      if k2 = k then (k, v) :: rest else (k2, v2) :: Fields.insert rest k v

/-- POSIX `os.path.basename`: everything after the last slash. -/
def basename (p : String) : String :=
  String.mk ((p.data.reverse.takeWhile (fun c => c ≠ '/')).reverse)

/-- First component of `os.path.splitext` on POSIX: the string up to the
last dot, except that a run of leading dots never starts an extension
(`.foo` has no extension). -/
def splitextFst (s : String) : String :=
  let cs := s.data
  match ((List.range cs.length).filter (fun i => cs.getD i ' ' = '.')).getLast? with
  | none => s
  | some d => if (cs.take d).any (fun c => c ≠ '.') then String.mk (cs.take d) else s

/-- Python 2 `str.replace("_", " ")`: every underscore becomes a space. -/
def replaceUnderscores (s : String) : String :=
  String.mk (s.data.map fun c => if c = '_' then ' ' else c)

/-- Python 2 `str.capitalize()`: first character uppercased, all
remaining characters lowercased. -/
def pyCapitalize (s : String) : String :=
  match s.data with
  | [] => ""
  | c :: rest => String.mk (c.toUpper :: rest.map Char.toLower)

/-- The display name `_submit_version` computes from the movie path
(`app.py` lines 146-152): base name, extension stripped, underscores
replaced by spaces, then Python `capitalize`. -/
def versionName (path_to_movie : String) : String :=
  pyCapitalize (replaceUnderscores (splitextFst (basename path_to_movie)))

/-- A Shotgun entity as this app reads it: a dict with `type`/`name`. -/
structure SgEntity where
  type : String
  name : String
deriving DecidableEq, Repr

/-- A published-file entity handle (opaque to this app: it is only
stored into the version record). -/
structure Publish where
  id : Int
deriving DecidableEq, Repr

/-- The current toolkit context, as read by the app: project, entity,
and optional task and step. -/
structure Context where
  project : SgEntity
  entity : SgEntity
  task : Option SgEntity
  step : Option SgEntity
deriving DecidableEq, Repr

/-- The version-record dictionary built by `_submit_version`
(`app.py` lines 155-183).  Keys only conditionally added are `Option`. -/
structure VersionData where
  code : String
  sg_status_list : String
  entity : SgEntity
  sg_task : Option SgEntity
  sg_first_frame : Int
  sg_last_frame : Int
  frame_count : Int
  frame_range : String
  sg_frames_have_slate : Bool
  created_by : String
  user : String
  description : String
  sg_path_to_frames : String
  sg_movie_has_slate : Bool
  project : SgEntity
  published_files : Option (List Publish)
  tank_published_file : Option Publish
  sg_path_to_movie : Option String
deriving DecidableEq, Repr

/-- Embedding of `QuicktimeGenerator._submit_version` (`app.py`
lines 137-186) up to the `create` call: builds the version dict and the
list of warnings logged.  `publishEntityType` is
`tank.util.get_published_file_entity_type`, `current_user` the result of
`tank.util.get_current_user`, `new_version_status` the setting. -/
def submit_version (ctx : Context) (new_version_status : String)
    (publishEntityType : String) (current_user : String)
    (path_to_frames path_to_movie : String) (sg_publishes : List Publish)
    (sg_task : Option SgEntity) (comment : String) (store_on_disk : Bool)
    (first_frame last_frame : Int) : VersionData × List String :=
  let name := versionName path_to_movie
  let base : VersionData := {
    code := name
    sg_status_list := new_version_status
    entity := ctx.entity
    sg_task := sg_task
    sg_first_frame := first_frame
    sg_last_frame := last_frame
    frame_count := last_frame - first_frame + 1
    frame_range := toString first_frame ++ "-" ++ toString last_frame
    sg_frames_have_slate := false
    created_by := current_user
    user := current_user
    description := comment
    sg_path_to_frames := path_to_frames
    sg_movie_has_slate := true
    project := ctx.project
    published_files := none
    tank_published_file := none
    sg_path_to_movie := none }
  let pubResult : VersionData × List String :=
    if publishEntityType = "PublishedFile" then
      ({ base with published_files := some sg_publishes }, ([] : List String))
    else
      if sg_publishes.length > 0 then
        let warns :=
          if sg_publishes.length > 1 then
            ["Only the first publish of " ++ toString sg_publishes.length ++
              " can be registered for the new version!"]
          else []
        ({ base with tank_published_file := sg_publishes.head? }, warns)
      else (base, [])
  let withMovie :=
    if store_on_disk then { pubResult.1 with sg_path_to_movie := some path_to_movie }
    else pubResult.1
  (withMovie, pubResult.2)

/-- Python `"%0Nd" % n`: decimal rendering of `n`, left-padded with
zeros to a minimum width of `w` (the sign, for negative `n`, counts
toward the width and precedes the zeros). -/
def pyZeroPadInt (w : Nat) (n : Int) : String :=
  let digits := toString n.natAbs
  if n < 0 then
    "-" ++ String.mk (List.replicate (w - 1 - digits.length) '0' ++ digits.data)
  else
    String.mk (List.replicate (w - digits.length) '0' ++ digits.data)

/-- The burnin version string of `_render_movie_in_nuke` (`app.py`
lines 221-222): `("%%0%dd" % padding) % fields.get("version", 0)`.
`none` embeds the `TypeError` Python raises when the `version` field
holds a non-integer. -/
def version_str? (version_number_padding : Nat) (fields : Fields) : Option String :=
  match Fields.get? fields "version" with
  | none => some (pyZeroPadInt version_number_padding 0)
  | some (.int n) => some (pyZeroPadInt version_number_padding n)
  | some (.str _) => none

/-- The bottom-left burnin label of `_render_movie_in_nuke` (`app.py`
lines 225-230): task name if a task is set, else step name if a step is
set, prefixed to `v<version_str>`. -/
def version_label (ctx : Context) (version_str : String) : String :=
  match ctx.task with
  | some t => t.name ++ ", v" ++ version_str
  | none =>
      match ctx.step with
      | some s => s.name ++ ", v" ++ version_str
      | none => "v" ++ version_str

/-- Python `fields.get("name", "Unnamed").capitalize()` (`app.py`
line 239); `none` embeds the `AttributeError` raised when the `name`
field holds an int. -/
def slateName? (fields : Fields) : Option String :=
  match Fields.get? fields "name" with
  | none => some (pyCapitalize "Unnamed")
  | some (.str s) => some (pyCapitalize s)
  | some (.int _) => none

/-- The slate text of `_render_movie_in_nuke` (`app.py` lines 237-247):
successive `+=` of newline-terminated lines. -/
def slate_str? (ctx : Context) (version_number_padding : Nat) (fields : Fields)
    (first_frame last_frame : Int) : Option String := do
  let nameLine ← slateName? fields
  let vs ← version_str? version_number_padding fields
  let s := "Project: " ++ ctx.project.name ++ "\n"
  let s := s ++ ctx.entity.type ++ ": " ++ ctx.entity.name ++ "\n"
  let s := s ++ "Name: " ++ nameLine ++ "\n"
  let s := s ++ "Version: " ++ vs ++ "\n"
  let s :=
    match ctx.task with
    | some t => s ++ "Task: " ++ t.name ++ "\n"
    | none =>
        match ctx.step with
        | some st => s ++ "Step: " ++ st.name ++ "\n"
        | none => s
  pure (s ++ "Frames: " ++ toString first_frame ++ " - " ++ toString last_frame ++ "\n")

/-- Result of `UploaderThread.run`: the accumulated error strings plus
which of the two remote uploads were attempted. -/
structure UploadOutcome where
  errors : List String
  movieAttempted : Bool
  thumbAttempted : Bool
deriving DecidableEq, Repr

/-- The errors accumulated by the movie-upload block of
`UploaderThread.run` (`app.py` lines 343-348). -/
def movieUploadErrors (upload_to_shotgun : Bool)
    (movieRes : Except String Unit) : List String :=
  if upload_to_shotgun then
    match movieRes with
    | .ok _ => []
    | .error e => ["Movie upload to Shotgun failed: " ++ e]
  else []

/-- The `upload_error` flag of `UploaderThread.run`: set exactly when
the movie upload was attempted and raised. -/
def movieUploadFailed (upload_to_shotgun : Bool)
    (movieRes : Except String Unit) : Bool :=
  if upload_to_shotgun then
    match movieRes with
    | .ok _ => false
    | .error _ => true
  else false

/-- Embedding of `UploaderThread.run` (`app.py` lines 337-354).  The
outcomes of the two remote calls (`shotgun.upload` and
`shotgun.upload_thumbnail`) are supplied as `Except` values; every
exception is caught and turned into an error string, so the function is
total and returns a plain `UploadOutcome`. -/
def uploaderRun (upload_to_shotgun : Bool)
    (movieRes thumbRes : Except String Unit) : UploadOutcome :=
  let errs1 := movieUploadErrors upload_to_shotgun movieRes
  let upload_error := movieUploadFailed upload_to_shotgun movieRes
  if !upload_to_shotgun || upload_error then
    match thumbRes with
    | .ok _ =>
        { errors := errs1, movieAttempted := upload_to_shotgun, thumbAttempted := true }
    | .error e =>
        { errors := errs1 ++ ["Thumbnail upload to Shotgun failed: " ++ e]
          movieAttempted := upload_to_shotgun, thumbAttempted := true }
  else { errors := errs1, movieAttempted := upload_to_shotgun, thumbAttempted := false }

/-- An SGTK template as the app uses it: the names of its
`SequenceKey` keys plus `apply_fields` (external PathResolver). -/
structure Template where
  seqKeys : List String
  apply_fields : Fields → String

/-- The configuration settings `render_and_submit` reads. -/
structure Settings where
  upload_to_shotgun : Bool
  store_on_disk : Bool
  movie_width : Int
  movie_height : Int
  new_version_status : String
  version_number_padding : Nat
deriving DecidableEq, Repr

/-- Outcomes of the external calls made during one run, plus the
initial filesystem (the set of existing paths). -/
structure World where
  fs : List String
  renderRes : Except String Unit
  createRes : Except String Unit
  movieUploadRes : Except String Unit
  thumbUploadRes : Except String Unit

/-- One observable side effect of a pipeline run, in trace order. -/
inductive Event
  | progress (pct : Int) (label : String)
  | render (inputPath outputPath : String) (width height first last : Int)
  | createVersion (data : VersionData)
  | uploadMovie
  | uploadThumbnail
  | logWarning (msg : String)
  | logError (msg : String)
  | unlink (path : String)
deriving DecidableEq, Repr

/-- Result of one `render_and_submit` run: the returned value (`.error`
embeds a propagated exception, `.ok none` the early `return None`), the
ordered event trace, and the final filesystem. -/
structure PipelineOutput where
  result : Except String (Option VersionData)
  events : List Event
  fs : List String

/-- The sequence-key rewrite of `render_and_submit` (`app.py`
lines 88-89): every `SequenceKey` field is set to the nuke-style
format marker. -/
def rewriteSeqFields (t : Template) (fields : Fields) : Fields :=
  t.seqKeys.foldl (fun f k => Fields.insert f k (.str "FORMAT: %d")) fields

/-- The cleanup step of `render_and_submit` (`app.py` lines 131-133):
`if not store_on_disk and os.path.exists(output_path): os.unlink(...)`.
Returns the new filesystem and the unlink events emitted. -/
def cleanupMovie (store_on_disk : Bool) (output_path : String)
    (fs : List String) : List String × List Event :=
  if !store_on_disk && output_path ∈ fs then
    (fs.filter (fun p => p ≠ output_path), [.unlink output_path])
  else (fs, [])

/-- Embedding of `QuicktimeGenerator.render_and_submit` (`app.py`
lines 52-135).  The blocking wait on the uploader thread
(`event_loop.exec_()`) makes the run sequential, so the thread body is
inlined at its position in the trace.  `template` is the input-frames
template argument, `outTemplate` the `movie_path_template` setting. -/
def render_and_submit (s : Settings) (ctx : Context) (publishEntityType : String)
    (current_user : String) (template outTemplate : Template) (fields : Fields)
    (first_frame last_frame : Int) (sg_publishes : List Publish)
    (sg_task : Option SgEntity) (comment : String) (w : World) : PipelineOutput :=
  if !s.upload_to_shotgun && !s.store_on_disk then
    { result := .ok none
      events := [.logWarning "App is not configured to store images on disk nor upload to shotgun!"]
      fs := w.fs }
  else
    let ev := [Event.progress 10 "Preparing"]
    -- fields = copy.copy(fields): the caller's mapping is left untouched;
    -- all updates below go to this run-local copy.
    let fields1 := rewriteSeqFields template fields
    let path := template.apply_fields fields1
    let width := s.movie_width
    let height := s.movie_height
    let fields2 := Fields.insert (Fields.insert fields1 "width" (.int width)) "height" (.int height)
    let output_path := outTemplate.apply_fields fields2
    let ev := ev ++ [Event.progress 20 "Rendering movie"]
    match w.renderRes with
    | .error e => { result := .error e, events := ev, fs := w.fs }
    | .ok _ =>
        let ev := ev ++ [Event.render path output_path width height first_frame last_frame]
        let fs1 := output_path :: w.fs
        let ev := ev ++ [Event.progress 50 "Creating Shotgun Version"]
        let dw := submit_version ctx s.new_version_status publishEntityType
          current_user path output_path sg_publishes sg_task comment s.store_on_disk
          first_frame last_frame
        let data := dw.1
        let ev := ev ++ dw.2.map Event.logWarning
        match w.createRes with
        | .error e => { result := .error e, events := ev, fs := fs1 }
        | .ok _ =>
            let ev := ev ++ [Event.createVersion data]
            let ev := ev ++ [Event.progress 60 "Uploading to Shotgun"]
            let outc := uploaderRun s.upload_to_shotgun w.movieUploadRes w.thumbUploadRes
            let ev := ev ++ (if outc.movieAttempted then [Event.uploadMovie] else [])
            let ev := ev ++ (if outc.thumbAttempted then [Event.uploadThumbnail] else [])
            let ev := ev ++ outc.errors.map Event.logError
            let cl := cleanupMovie s.store_on_disk output_path fs1
            { result := .ok (some data), events := ev ++ cl.2, fs := cl.1 }

/-- C2: for every run with first_frame ≤ last_frame, the created version
record has frame_count = last_frame - first_frame + 1, frame_range equal
to "<first>-<last>" (no spaces), and sg_first_frame/sg_last_frame equal
to the supplied frames. -/
theorem submit_version_frame_fields (ctx : Context) (nvs pet cu ptf ptm : String)
    (pubs : List Publish) (task : Option SgEntity) (comment : String)
    (sod : Bool) (first_frame last_frame : Int) (h : first_frame ≤ last_frame) :
    (submit_version ctx nvs pet cu ptf ptm pubs task comment sod first_frame last_frame).1.frame_count
        = last_frame - first_frame + 1 ∧
    (submit_version ctx nvs pet cu ptf ptm pubs task comment sod first_frame last_frame).1.frame_range
        = toString first_frame ++ "-" ++ toString last_frame ∧
    (submit_version ctx nvs pet cu ptf ptm pubs task comment sod first_frame last_frame).1.sg_first_frame
        = first_frame ∧
    (submit_version ctx nvs pet cu ptf ptm pubs task comment sod first_frame last_frame).1.sg_last_frame
        = last_frame := by
  unfold submit_version
  by_cases h1 : pet = "PublishedFile" <;> by_cases h2 : pubs.length > 0 <;>
    by_cases h3 : pubs.length > 1 <;> cases sod <;> simp [h1, h2, h3]

theorem submit_version_frame_fields_witness :
    (1 : Int) ≤ 24 ∧
    ((submit_version ⟨⟨"Project","P"⟩,⟨"Shot","s"⟩,none,none⟩ "rev" "PublishedFile" "u" "f" "m.mov"
        [] none "c" true 1 24).1.frame_count = 24 - 1 + 1 ∧
     (submit_version ⟨⟨"Project","P"⟩,⟨"Shot","s"⟩,none,none⟩ "rev" "PublishedFile" "u" "f" "m.mov"
        [] none "c" true 1 24).1.frame_range = toString (1 : Int) ++ "-" ++ toString (24 : Int) ∧
     (submit_version ⟨⟨"Project","P"⟩,⟨"Shot","s"⟩,none,none⟩ "rev" "PublishedFile" "u" "f" "m.mov"
        [] none "c" true 1 24).1.sg_first_frame = 1 ∧
     (submit_version ⟨⟨"Project","P"⟩,⟨"Shot","s"⟩,none,none⟩ "rev" "PublishedFile" "u" "f" "m.mov"
        [] none "c" true 1 24).1.sg_last_frame = 24) :=
  ⟨by decide, submit_version_frame_fields ⟨⟨"Project","P"⟩,⟨"Shot","s"⟩,none,none⟩ "rev"
    "PublishedFile" "u" "f" "m.mov" [] none "c" true 1 24 (by decide)⟩


/-- C4 counterexample: for the movie path "my_SHOT_010.mov", stripping
the extension and replacing underscores gives "my SHOT 010"; capitalizing
only the first letter with no other character altered would give
"My SHOT 010", but the code (Python str.capitalize) yields "My shot 010":
the remaining characters are lowercased. -/
theorem versionName_counterexample :
    versionName "my_SHOT_010.mov" = "My shot 010" ∧
    versionName "my_SHOT_010.mov" ≠ "My SHOT 010" := by decide

/-- C4 amended: the display name is the movie file base name with the
extension stripped and underscores replaced by spaces, then the first
character is uppercased and every remaining character is lowercased
(Python str.capitalize); e.g. "my_shot_010" yields "My shot 010". -/
theorem versionName_amended (p : String) :
    ((versionName p).data =
      ((replaceUnderscores (splitextFst (basename p))).data.take 1).map Char.toUpper ++
      ((replaceUnderscores (splitextFst (basename p))).data.drop 1).map Char.toLower) ∧
    versionName "my_shot_010.mov" = "My shot 010" := by
  refine ⟨?_, by decide⟩
  show (pyCapitalize (replaceUnderscores (splitextFst (basename p)))).data = _
  rcases hs : (replaceUnderscores (splitextFst (basename p))).data with _ | ⟨c, rest⟩ <;>
    simp [pyCapitalize, hs]


/-- C5: with the modern "PublishedFile" schema the whole publishes list
is attached; with the legacy schema only the first publish is attached,
and a warning (no exception) is logged exactly when more than one
publish was supplied. -/
theorem submit_version_publish_linkage (ctx : Context) (nvs pet cu ptf ptm : String)
    (pubs : List Publish) (task : Option SgEntity) (comment : String)
    (sod : Bool) (ff lf : Int) :
    (pet = "PublishedFile" →
        (submit_version ctx nvs pet cu ptf ptm pubs task comment sod ff lf).1.published_files
            = some pubs ∧
        (submit_version ctx nvs pet cu ptf ptm pubs task comment sod ff lf).1.tank_published_file
            = none ∧
        (submit_version ctx nvs pet cu ptf ptm pubs task comment sod ff lf).2 = []) ∧
    (pet ≠ "PublishedFile" → ∀ p rest, pubs = p :: rest →
        (submit_version ctx nvs pet cu ptf ptm pubs task comment sod ff lf).1.tank_published_file
            = some p ∧
        (submit_version ctx nvs pet cu ptf ptm pubs task comment sod ff lf).1.published_files
            = none ∧
        (submit_version ctx nvs pet cu ptf ptm pubs task comment sod ff lf).2
            = (if rest.length > 0 then
                 ["Only the first publish of " ++ toString (rest.length + 1) ++
                   " can be registered for the new version!"]
               else [])) := by
  constructor
  · intro h1
    cases sod <;> simp [submit_version, h1]
  · intro h1 p rest hp
    subst hp
    rcases rest with _ | ⟨q, rest2⟩ <;> cases sod <;>
      simp [submit_version, h1]

theorem submit_version_publish_linkage_witness :
    (submit_version ⟨⟨"Project","P"⟩,⟨"Shot","s"⟩,none,none⟩ "rev" "TankPublishedFile" "u" "f"
        "m.mov" [⟨1⟩,⟨2⟩,⟨3⟩] none "c" true 1 24).1.tank_published_file = some ⟨1⟩ ∧
    (submit_version ⟨⟨"Project","P"⟩,⟨"Shot","s"⟩,none,none⟩ "rev" "TankPublishedFile" "u" "f"
        "m.mov" [⟨1⟩,⟨2⟩,⟨3⟩] none "c" true 1 24).1.published_files = none ∧
    (submit_version ⟨⟨"Project","P"⟩,⟨"Shot","s"⟩,none,none⟩ "rev" "TankPublishedFile" "u" "f"
        "m.mov" [⟨1⟩,⟨2⟩,⟨3⟩] none "c" true 1 24).2
      = (if ([⟨2⟩,⟨3⟩] : List Publish).length > 0 then
           ["Only the first publish of " ++ toString (([⟨2⟩,⟨3⟩] : List Publish).length + 1) ++
             " can be registered for the new version!"]
         else []) :=
  (submit_version_publish_linkage ⟨⟨"Project","P"⟩,⟨"Shot","s"⟩,none,none⟩ "rev"
      "TankPublishedFile" "u" "f" "m.mov" [⟨1⟩,⟨2⟩,⟨3⟩] none "c" true 1 24).2
    (by decide) ⟨1⟩ [⟨2⟩,⟨3⟩] rfl

/-- C10: the record carries sg_path_to_movie exactly when store_on_disk
is true (with the movie path as its value), and under the legacy schema
with no publishes neither publish-link key is present. -/
theorem submit_version_movie_path (ctx : Context) (nvs pet cu ptf ptm : String)
    (pubs : List Publish) (task : Option SgEntity) (comment : String)
    (sod : Bool) (ff lf : Int) :
    ((submit_version ctx nvs pet cu ptf ptm pubs task comment sod ff lf).1.sg_path_to_movie
        = (if sod then some ptm else none)) ∧
    (pet ≠ "PublishedFile" → pubs = [] →
        (submit_version ctx nvs pet cu ptf ptm pubs task comment sod ff lf).1.tank_published_file
            = none ∧
        (submit_version ctx nvs pet cu ptf ptm pubs task comment sod ff lf).1.published_files
            = none) := by
  constructor
  · by_cases h1 : pet = "PublishedFile" <;> by_cases h2 : pubs.length > 0 <;>
      by_cases h3 : pubs.length > 1 <;> cases sod <;> simp [submit_version, h1, h2, h3]
  · intro h1 hp
    subst hp
    cases sod <;> simp [submit_version, h1]

theorem submit_version_movie_path_witness :
    ((submit_version ⟨⟨"Project","P"⟩,⟨"Shot","s"⟩,none,none⟩ "rev" "TankPublishedFile" "u" "f"
        "m.mov" [] none "c" false 1 24).1.sg_path_to_movie
      = (if false then some "m.mov" else none)) ∧
    ((submit_version ⟨⟨"Project","P"⟩,⟨"Shot","s"⟩,none,none⟩ "rev" "TankPublishedFile" "u" "f"
        "m.mov" [] none "c" false 1 24).1.tank_published_file = none ∧
     (submit_version ⟨⟨"Project","P"⟩,⟨"Shot","s"⟩,none,none⟩ "rev" "TankPublishedFile" "u" "f"
        "m.mov" [] none "c" false 1 24).1.published_files = none) :=
  ⟨(submit_version_movie_path ⟨⟨"Project","P"⟩,⟨"Shot","s"⟩,none,none⟩ "rev" "TankPublishedFile"
      "u" "f" "m.mov" [] none "c" false 1 24).1,
   (submit_version_movie_path ⟨⟨"Project","P"⟩,⟨"Shot","s"⟩,none,none⟩ "rev" "TankPublishedFile"
      "u" "f" "m.mov" [] none "c" false 1 24).2 (by decide) rfl⟩


/-- C8: the burnin version string is the version field (default 0)
zero-padded to the configured width, and the version label prefixes the
task name, else the step name, else nothing, to "v<version_str>";
pad width 3 with version 7 gives "007", absent gives "000". -/
theorem version_string_and_label (pad : Nat) (fields : Fields) (ctx : Context) :
    (Fields.get? fields "version" = none →
        version_str? pad fields
          = some (String.mk (List.replicate (pad - (toString (0 : Nat)).length) '0'
              ++ (toString (0 : Nat)).data))) ∧
    (∀ n : Nat, Fields.get? fields "version" = some (.int (n : Int)) →
        version_str? pad fields
          = some (String.mk (List.replicate (pad - (toString n).length) '0'
              ++ (toString n).data))) ∧
    (∀ vs t, ctx.task = some t → version_label ctx vs = t.name ++ ", v" ++ vs) ∧
    (∀ vs st, ctx.task = none → ctx.step = some st →
        version_label ctx vs = st.name ++ ", v" ++ vs) ∧
    (∀ vs, ctx.task = none → ctx.step = none → version_label ctx vs = "v" ++ vs) ∧
    version_str? 3 [("version", .int 7)] = some "007" ∧
    version_str? 3 [] = some "000" := by
  refine ⟨?_, ?_, ?_, ?_, ?_, by decide, by decide⟩
  · intro h
    simp [version_str?, h, pyZeroPadInt]
  · intro n h
    simp [version_str?, h, pyZeroPadInt]
  · intro vs t ht
    simp [version_label, ht]
  · intro vs st ht hst
    simp [version_label, ht, hst]
  · intro vs ht hst
    simp [version_label, ht, hst]

theorem version_string_and_label_witness :
    version_str? 3 ([] : Fields)
        = some (String.mk (List.replicate (3 - (toString (0 : Nat)).length) '0'
            ++ (toString (0 : Nat)).data)) ∧
    version_str? 3 [("version", .int 7)]
        = some (String.mk (List.replicate (3 - (toString (7 : Nat)).length) '0'
            ++ (toString (7 : Nat)).data)) ∧
    version_label ⟨⟨"Project","P"⟩,⟨"Shot","s"⟩,some ⟨"Task","comp"⟩,none⟩ "007"
        = "comp" ++ ", v" ++ "007" :=
  ⟨(version_string_and_label 3 [] ⟨⟨"Project","P"⟩,⟨"Shot","s"⟩,none,none⟩).1 rfl,
   (version_string_and_label 3 [("version", .int 7)]
      ⟨⟨"Project","P"⟩,⟨"Shot","s"⟩,none,none⟩).2.1 7 rfl,
   (version_string_and_label 3 [] ⟨⟨"Project","P"⟩,⟨"Shot","s"⟩,some ⟨"Task","comp"⟩,none⟩).2.2.1
      "007" ⟨"Task","comp"⟩ rfl⟩

/-- C9: the slate text is the concatenation, in order, of the Project
line, the "<entity type>: <entity name>" line, the Name line, the
Version line, then a Task line if a task is set else a Step line if a
step is set else neither, then the Frames line, each newline-terminated. -/
theorem slate_text_format (ctx : Context) (pad : Nat) (fields : Fields)
    (ff lf : Int) (nm vs : String)
    (hn : slateName? fields = some nm) (hv : version_str? pad fields = some vs) :
    slate_str? ctx pad fields ff lf = some (String.join
      (["Project: " ++ ctx.project.name ++ "\n",
        ctx.entity.type ++ ": " ++ ctx.entity.name ++ "\n",
        "Name: " ++ nm ++ "\n",
        "Version: " ++ vs ++ "\n"] ++
       (match ctx.task, ctx.step with
        | some t, _ => ["Task: " ++ t.name ++ "\n"]
        | none, some st => ["Step: " ++ st.name ++ "\n"]
        | none, none => []) ++
       ["Frames: " ++ toString ff ++ " - " ++ toString lf ++ "\n"])) := by
  rcases ht : ctx.task with _ | t <;> rcases hst : ctx.step with _ | st <;>
  · simp only [slate_str?, ht, hst, hn, hv, Option.bind_eq_bind, Option.some_bind]
    refine congrArg some (String.toList_inj.mp ?_)
    show String.data _ = String.data _
    simp only [String.data_append, String.data_join, List.map_cons, List.map_nil,
      List.flatten_cons, List.flatten_nil, List.append_assoc, List.append_nil,
      List.cons_append, List.nil_append]


/-- C1: the thumbnail upload is attempted exactly when the movie upload
is disabled or raised; the movie upload is attempted exactly when
enabled; the error list is the movie error followed by the thumbnail
error; and whenever the version record was created the pipeline still
returns a non-null record, for every combination of upload outcomes. -/
theorem uploader_thread_behavior (u : Bool) (mres tres : Except String Unit)
    (s : Settings) (ctx : Context) (pet cu : String) (t ot : Template)
    (fields : Fields) (ff lf : Int) (pubs : List Publish)
    (task : Option SgEntity) (comment : String) (w : World)
    (hf : (s.upload_to_shotgun || s.store_on_disk) = true)
    (hr : w.renderRes = .ok ()) (hc : w.createRes = .ok ()) :
    ((uploaderRun u mres tres).thumbAttempted = true ↔
        u = false ∨ ∃ e, mres = .error e) ∧
    ((uploaderRun u mres tres).movieAttempted = u) ∧
    ((uploaderRun u mres tres).errors =
        (match mres with
         | .error e => if u then ["Movie upload to Shotgun failed: " ++ e] else []
         | .ok _ => []) ++
        (match tres with
         | .error e =>
             if (uploaderRun u mres tres).thumbAttempted then
               ["Thumbnail upload to Shotgun failed: " ++ e]
             else []
         | .ok _ => [])) ∧
    (∃ d, (render_and_submit s ctx pet cu t ot fields ff lf pubs task comment w).result
        = .ok (some d)) := by
  refine ⟨?_, ?_, ?_, ?_⟩
  · cases u <;> rcases mres with e | _ <;>
      rcases tres with e2 | _ <;>
      simp [uploaderRun, movieUploadErrors, movieUploadFailed]
  · cases u <;> rcases mres with e | _ <;>
      rcases tres with e2 | _ <;>
      simp [uploaderRun, movieUploadErrors, movieUploadFailed]
  · cases u <;> rcases mres with e | _ <;>
      rcases tres with e2 | _ <;>
      simp [uploaderRun, movieUploadErrors, movieUploadFailed]
  · have hcond : (!s.upload_to_shotgun && !s.store_on_disk) = false := by
      cases hu : s.upload_to_shotgun <;> cases hs : s.store_on_disk <;> simp_all
    obtain ⟨fs, rr, cr, mr, tr⟩ := w
    simp only at hr hc
    subst hr; subst hc
    simp [render_and_submit, hcond]

/-- C3: with both flags false the pipeline logs one warning and returns
null with no other event and the filesystem untouched; with at least one
flag set (upload may be disabled) the version record is created and
returned whenever render and create succeed. -/
theorem disabled_flags_null (s : Settings) (ctx : Context) (pet cu : String)
    (t ot : Template) (fields : Fields) (ff lf : Int) (pubs : List Publish)
    (task : Option SgEntity) (comment : String) (w : World) :
    (s.upload_to_shotgun = false → s.store_on_disk = false →
        (render_and_submit s ctx pet cu t ot fields ff lf pubs task comment w).result
            = .ok none ∧
        (render_and_submit s ctx pet cu t ot fields ff lf pubs task comment w).events
            = [.logWarning "App is not configured to store images on disk nor upload to shotgun!"] ∧
        (render_and_submit s ctx pet cu t ot fields ff lf pubs task comment w).fs = w.fs) ∧
    ((s.upload_to_shotgun || s.store_on_disk) = true →
        w.renderRes = .ok () → w.createRes = .ok () →
        ∃ d, (render_and_submit s ctx pet cu t ot fields ff lf pubs task comment w).result
            = .ok (some d) ∧
          Event.createVersion d
            ∈ (render_and_submit s ctx pet cu t ot fields ff lf pubs task comment w).events) := by
  constructor
  · intro h1 h2
    simp [render_and_submit, h1, h2]
  · intro hf hr hc
    have hcond : (!s.upload_to_shotgun && !s.store_on_disk) = false := by
      cases hu : s.upload_to_shotgun <;> cases hs : s.store_on_disk <;> simp_all
    obtain ⟨fs, rr, cr, mr, tr⟩ := w
    simp only at hr hc
    subst hr; subst hc
    simp [render_and_submit, hcond]


/-- C6: the run operates on a run-local copy of the field mapping (the
caller's value is a pure input, never returned modified); the render
step receives an input-frames path resolved from the rewritten fields
WITHOUT width/height and an output-movie path resolved from those fields
WITH width/height injected, so for every choice of the width/height
settings the input-frames path is the same while only the output path
sees the injected fields. -/
theorem width_height_injection (s : Settings) (ctx : Context) (pet cu : String)
    (t ot : Template) (fields : Fields) (ff lf : Int) (pubs : List Publish)
    (task : Option SgEntity) (comment : String) (w : World)
    (hf : (s.upload_to_shotgun || s.store_on_disk) = true)
    (hr : w.renderRes = .ok ()) :
    (Event.render (t.apply_fields (rewriteSeqFields t fields))
        (ot.apply_fields (Fields.insert (Fields.insert (rewriteSeqFields t fields)
            "width" (.int s.movie_width)) "height" (.int s.movie_height)))
        s.movie_width s.movie_height ff lf
      ∈ (render_and_submit s ctx pet cu t ot fields ff lf pubs task comment w).events) ∧
    (∀ mw mh : Int,
      Event.render (t.apply_fields (rewriteSeqFields t fields))
          (ot.apply_fields (Fields.insert (Fields.insert (rewriteSeqFields t fields)
              "width" (.int mw)) "height" (.int mh)))
          mw mh ff lf
        ∈ (render_and_submit { s with movie_width := mw, movie_height := mh }
            ctx pet cu t ot fields ff lf pubs task comment w).events) := by
  have hcond : (!s.upload_to_shotgun && !s.store_on_disk) = false := by
    cases hu : s.upload_to_shotgun <;> cases hs : s.store_on_disk <;> simp_all
  obtain ⟨fs, rr, cr, mr, tr⟩ := w
  simp only at hr
  subst hr
  constructor
  · rcases cr with e | _ <;> simp [render_and_submit, hcond]
  · intro mw mh
    rcases cr with e | _ <;> simp [render_and_submit, hcond]


/-- C7: after a run in which the version was created, if store_on_disk
is false the rendered movie path is no longer in the filesystem (in
particular when the upload succeeded); if store_on_disk is true it still
is, regardless of upload outcome; the deletion step is a no-op when the
file is absent; and the trace places every upload event before the
cleanup events, which are the only unlink events. -/
theorem movie_cleanup (s : Settings) (ctx : Context) (pet cu : String)
    (t ot : Template) (fields : Fields) (ff lf : Int) (pubs : List Publish)
    (task : Option SgEntity) (comment : String) (w : World)
    (hf : (s.upload_to_shotgun || s.store_on_disk) = true)
    (hr : w.renderRes = .ok ()) (hc : w.createRes = .ok ()) :
    (s.store_on_disk = false →
        ot.apply_fields (Fields.insert (Fields.insert (rewriteSeqFields t fields)
            "width" (.int s.movie_width)) "height" (.int s.movie_height))
          ∉ (render_and_submit s ctx pet cu t ot fields ff lf pubs task comment w).fs) ∧
    (s.store_on_disk = true →
        ot.apply_fields (Fields.insert (Fields.insert (rewriteSeqFields t fields)
            "width" (.int s.movie_width)) "height" (.int s.movie_height))
          ∈ (render_and_submit s ctx pet cu t ot fields ff lf pubs task comment w).fs) ∧
    (∀ (fs₀ : List String) (p : String), p ∉ fs₀ → cleanupMovie false p fs₀ = (fs₀, [])) ∧
    (∃ pre,
      (render_and_submit s ctx pet cu t ot fields ff lf pubs task comment w).events
          = pre ++ (cleanupMovie s.store_on_disk
              (ot.apply_fields (Fields.insert (Fields.insert (rewriteSeqFields t fields)
                  "width" (.int s.movie_width)) "height" (.int s.movie_height)))
              (ot.apply_fields (Fields.insert (Fields.insert (rewriteSeqFields t fields)
                  "width" (.int s.movie_width)) "height" (.int s.movie_height)) :: w.fs)).2 ∧
      (∀ p, Event.unlink p ∉ pre) ∧
      ((uploaderRun s.upload_to_shotgun w.movieUploadRes w.thumbUploadRes).movieAttempted = true →
          Event.uploadMovie ∈ pre) ∧
      ((uploaderRun s.upload_to_shotgun w.movieUploadRes w.thumbUploadRes).thumbAttempted = true →
          Event.uploadThumbnail ∈ pre)) := by
  have hcond : (!s.upload_to_shotgun && !s.store_on_disk) = false := by
    cases hu : s.upload_to_shotgun <;> cases hs : s.store_on_disk <;> simp_all
  obtain ⟨fs, rr, cr, mr, tr⟩ := w
  simp only at hr hc
  subst hr; subst hc
  refine ⟨?_, ?_, ?_, ?_⟩
  · intro hsod
    have hu : s.upload_to_shotgun = true := by
      cases hu2 : s.upload_to_shotgun <;> simp_all
    simp [render_and_submit, hcond, cleanupMovie, hsod, hu, List.mem_filter]
  · intro hsod
    simp [render_and_submit, hcond, cleanupMovie, hsod]
  · intro fs₀ p hp
    simp [cleanupMovie, hp]
  · set ip := t.apply_fields (rewriteSeqFields t fields) with hip
    set op := ot.apply_fields (Fields.insert (Fields.insert (rewriteSeqFields t fields)
        "width" (.int s.movie_width)) "height" (.int s.movie_height)) with hop
    set dw := submit_version ctx s.new_version_status pet cu ip op pubs task comment
        s.store_on_disk ff lf with hdw
    set outc := uploaderRun s.upload_to_shotgun mr tr with houtc
    refine ⟨[Event.progress 10 "Preparing", Event.progress 20 "Rendering movie",
        Event.render ip op s.movie_width s.movie_height ff lf,
        Event.progress 50 "Creating Shotgun Version"] ++
        dw.2.map Event.logWarning ++
        [Event.createVersion dw.1, Event.progress 60 "Uploading to Shotgun"] ++
        (if outc.movieAttempted then [Event.uploadMovie] else []) ++
        (if outc.thumbAttempted then [Event.uploadThumbnail] else []) ++
        outc.errors.map Event.logError, ?_, ?_, ?_, ?_⟩
    · cases hm : outc.movieAttempted <;> cases hth : outc.thumbAttempted <;>
        simp [render_and_submit, hcond, hip, hop, hdw, ← houtc, hm, hth]
    · intro p
      cases hm : outc.movieAttempted <;> cases hth : outc.thumbAttempted <;>
        simp [hm, hth]
    · intro hm
      cases hth : outc.thumbAttempted <;> simp [hm, hth]
    · intro hth
      cases hm : outc.movieAttempted <;> simp [hm, hth]


theorem slate_text_format_witness :
    slateName? [("name", .str "main"), ("version", .int 7)] = some "Main" ∧
    version_str? 3 [("name", .str "main"), ("version", .int 7)] = some "007" ∧
    slate_str? ⟨⟨"Project","Proj"⟩, ⟨"Shot","sh010"⟩, some ⟨"Task","comp"⟩, none⟩ 3
        [("name", .str "main"), ("version", .int 7)] 1 24
      = some "Project: Proj\nShot: sh010\nName: Main\nVersion: 007\nTask: comp\nFrames: 1 - 24\n" :=
  ⟨by decide, by decide,
   slate_text_format ⟨⟨"Project","Proj"⟩, ⟨"Shot","sh010"⟩, some ⟨"Task","comp"⟩, none⟩ 3
     [("name", .str "main"), ("version", .int 7)] 1 24 "Main" "007" (by decide) (by decide)⟩

theorem uploader_thread_behavior_witness :
    ((true : Bool) || false) = true ∧
    (uploaderRun true (.error "boom") (.ok ())).thumbAttempted = true ∧
    (uploaderRun true (.error "boom") (.ok ())).movieAttempted = true ∧
    (uploaderRun true (.error "boom") (.ok ())).errors
        = ["Movie upload to Shotgun failed: boom"] ∧
    (∃ d, (render_and_submit ⟨true, false, 1920, 1080, "rev", 3⟩
        ⟨⟨"Project","Proj"⟩, ⟨"Shot","sh010"⟩, none, none⟩ "PublishedFile" "u"
        ⟨["SEQ"], fun _ => "frames"⟩ ⟨[], fun _ => "out.mov"⟩ [] 1 24 [] none "c"
        ⟨["a"], .ok (), .ok (), .error "boom", .ok ()⟩).result = .ok (some d)) := by
  have h := uploader_thread_behavior true (.error "boom") (.ok ())
    ⟨true, false, 1920, 1080, "rev", 3⟩
    ⟨⟨"Project","Proj"⟩, ⟨"Shot","sh010"⟩, none, none⟩ "PublishedFile" "u"
    ⟨["SEQ"], fun _ => "frames"⟩ ⟨[], fun _ => "out.mov"⟩ [] 1 24 [] none "c"
    ⟨["a"], .ok (), .ok (), .error "boom", .ok ()⟩ rfl rfl rfl
  refine ⟨rfl, h.1.mpr (Or.inr ⟨"boom", rfl⟩), h.2.1, ?_, h.2.2.2⟩
  simpa using h.2.2.1

theorem disabled_flags_null_witness :
    ((render_and_submit ⟨false, false, 1920, 1080, "rev", 3⟩
        ⟨⟨"Project","Proj"⟩, ⟨"Shot","sh010"⟩, none, none⟩ "PublishedFile" "u"
        ⟨["SEQ"], fun _ => "frames"⟩ ⟨[], fun _ => "out.mov"⟩ [] 1 24 [] none "c"
        ⟨["a"], .ok (), .ok (), .ok (), .ok ()⟩).result = .ok none ∧
     (render_and_submit ⟨false, false, 1920, 1080, "rev", 3⟩
        ⟨⟨"Project","Proj"⟩, ⟨"Shot","sh010"⟩, none, none⟩ "PublishedFile" "u"
        ⟨["SEQ"], fun _ => "frames"⟩ ⟨[], fun _ => "out.mov"⟩ [] 1 24 [] none "c"
        ⟨["a"], .ok (), .ok (), .ok (), .ok ()⟩).events
       = [.logWarning "App is not configured to store images on disk nor upload to shotgun!"] ∧
     (render_and_submit ⟨false, false, 1920, 1080, "rev", 3⟩
        ⟨⟨"Project","Proj"⟩, ⟨"Shot","sh010"⟩, none, none⟩ "PublishedFile" "u"
        ⟨["SEQ"], fun _ => "frames"⟩ ⟨[], fun _ => "out.mov"⟩ [] 1 24 [] none "c"
        ⟨["a"], .ok (), .ok (), .ok (), .ok ()⟩).fs = ["a"]) ∧
    (∃ d, (render_and_submit ⟨false, true, 1920, 1080, "rev", 3⟩
        ⟨⟨"Project","Proj"⟩, ⟨"Shot","sh010"⟩, none, none⟩ "PublishedFile" "u"
        ⟨["SEQ"], fun _ => "frames"⟩ ⟨[], fun _ => "out.mov"⟩ [] 1 24 [] none "c"
        ⟨["a"], .ok (), .ok (), .ok (), .ok ()⟩).result = .ok (some d) ∧
      Event.createVersion d ∈ (render_and_submit ⟨false, true, 1920, 1080, "rev", 3⟩
        ⟨⟨"Project","Proj"⟩, ⟨"Shot","sh010"⟩, none, none⟩ "PublishedFile" "u"
        ⟨["SEQ"], fun _ => "frames"⟩ ⟨[], fun _ => "out.mov"⟩ [] 1 24 [] none "c"
        ⟨["a"], .ok (), .ok (), .ok (), .ok ()⟩).events) :=
  ⟨(disabled_flags_null ⟨false, false, 1920, 1080, "rev", 3⟩
      ⟨⟨"Project","Proj"⟩, ⟨"Shot","sh010"⟩, none, none⟩ "PublishedFile" "u"
      ⟨["SEQ"], fun _ => "frames"⟩ ⟨[], fun _ => "out.mov"⟩ [] 1 24 [] none "c"
      ⟨["a"], .ok (), .ok (), .ok (), .ok ()⟩).1 rfl rfl,
   (disabled_flags_null ⟨false, true, 1920, 1080, "rev", 3⟩
      ⟨⟨"Project","Proj"⟩, ⟨"Shot","sh010"⟩, none, none⟩ "PublishedFile" "u"
      ⟨["SEQ"], fun _ => "frames"⟩ ⟨[], fun _ => "out.mov"⟩ [] 1 24 [] none "c"
      ⟨["a"], .ok (), .ok (), .ok (), .ok ()⟩).2 rfl rfl rfl⟩

theorem width_height_injection_witness :
    Event.render "frames" "out.mov" 1920 1080 1 24
      ∈ (render_and_submit ⟨true, false, 1920, 1080, "rev", 3⟩
          ⟨⟨"Project","Proj"⟩, ⟨"Shot","sh010"⟩, none, none⟩ "PublishedFile" "u"
          ⟨["SEQ"], fun _ => "frames"⟩ ⟨[], fun _ => "out.mov"⟩ [] 1 24 [] none "c"
          ⟨["a"], .ok (), .ok (), .ok (), .ok ()⟩).events ∧
    Event.render "frames" "out.mov" 320 240 1 24
      ∈ (render_and_submit ⟨true, false, 320, 240, "rev", 3⟩
          ⟨⟨"Project","Proj"⟩, ⟨"Shot","sh010"⟩, none, none⟩ "PublishedFile" "u"
          ⟨["SEQ"], fun _ => "frames"⟩ ⟨[], fun _ => "out.mov"⟩ [] 1 24 [] none "c"
          ⟨["a"], .ok (), .ok (), .ok (), .ok ()⟩).events :=
  ⟨(width_height_injection ⟨true, false, 1920, 1080, "rev", 3⟩
      ⟨⟨"Project","Proj"⟩, ⟨"Shot","sh010"⟩, none, none⟩ "PublishedFile" "u"
      ⟨["SEQ"], fun _ => "frames"⟩ ⟨[], fun _ => "out.mov"⟩ [] 1 24 [] none "c"
      ⟨["a"], .ok (), .ok (), .ok (), .ok ()⟩ rfl rfl).1,
   (width_height_injection ⟨true, false, 1920, 1080, "rev", 3⟩
      ⟨⟨"Project","Proj"⟩, ⟨"Shot","sh010"⟩, none, none⟩ "PublishedFile" "u"
      ⟨["SEQ"], fun _ => "frames"⟩ ⟨[], fun _ => "out.mov"⟩ [] 1 24 [] none "c"
      ⟨["a"], .ok (), .ok (), .ok (), .ok ()⟩ rfl rfl).2 320 240⟩

theorem movie_cleanup_witness :
    "out.mov" ∉ (render_and_submit ⟨true, false, 1920, 1080, "rev", 3⟩
        ⟨⟨"Project","Proj"⟩, ⟨"Shot","sh010"⟩, none, none⟩ "PublishedFile" "u"
        ⟨["SEQ"], fun _ => "frames"⟩ ⟨[], fun _ => "out.mov"⟩ [] 1 24 [] none "c"
        ⟨["a"], .ok (), .ok (), .error "boom", .ok ()⟩).fs ∧
    cleanupMovie false "x" ["a"] = (["a"], []) :=
  have h := movie_cleanup ⟨true, false, 1920, 1080, "rev", 3⟩
    ⟨⟨"Project","Proj"⟩, ⟨"Shot","sh010"⟩, none, none⟩ "PublishedFile" "u"
    ⟨["SEQ"], fun _ => "frames"⟩ ⟨[], fun _ => "out.mov"⟩ [] 1 24 [] none "c"
    ⟨["a"], .ok (), .ok (), .error "boom", .ok ()⟩ rfl rfl rfl
  ⟨h.1 rfl, h.2.2.1 ["a"] "x" (by decide)⟩

end ReviewSubmission
